import Mathlib

/-!
Verification of the workflow-agent layer of `adk_multiagent_systems/workflow_agents/agent.py`.

The shallow embedding below mirrors the source file:

* the shared state store (`tool_context.state`) is a mapping from string keys
  to values, where a value is either a string or a list of strings;
* `append_to_state` is the tool defined at lines 42-57 of the source;
* `pitch_is_good` is the predicate defined at lines 313-315;
* `ConditionalAgent` (lines 74-105) is the custom workflow agent whose `plan`
  method picks one of two branch lists from a predicate over the state;
* the concrete agents (`researcher`, `screenwriter`, `critic`,
  `preproduction_team`, `file_writer`, `producer`, `writers_room`,
  `pitch_approval_workflow`, `film_concept_team`) are embedded as a tree of
  descriptors carrying the data the source supplies (name, output key, tools,
  children, iteration cap, predicate).

The sequential, parallel and loop composites themselves are classes of the
external `google.adk` framework and their code is not part of this repository;
their execution semantics are modelled from the spec (sections 4.1-4.3) where
a claim needs them, and each such definition says so in its doc comment.
-/

/-- A value stored in the shared state bag: the source either writes strings
(`output_key` of an LLM agent) or lists of strings (`append_to_state`). -/
inductive Value where
  | str : String → Value
  | list : List String → Value
deriving DecidableEq, Repr

/-- The shared state store: `tool_context.state`, a mutable key/value bag with
string keys.  Embedded as a total function to optional values (absent keys map
to `none`, matching Python `dict.get` returning `None`). -/
def StateStore : Type := String → Option Value

/-- Write one key, leaving every other key unchanged (Python `state[k] = v`). -/
def StateStore.set (s : StateStore) (k : String) (v : Value) : StateStore :=
  fun k' => if k' = k then some v else s k'

/-- The empty state store (no keys present). -/
def StateStore.empty : StateStore := fun _ => none

/-- Python truthiness of an optional state value: `None`, `""` and `[]` are
falsy, everything else is truthy. -/
def pyTruthy : Option Value → Bool
  | none => false
  | some (.str t) => !(t == "")
  | some (.list l) => !l.isEmpty

/-- `state.get(field, [])` as the source's `append_to_state` uses it: the
stored list when the key holds a list, `[]` when the key is absent.  (When the
key holds a string the Python code would go on to raise a `TypeError`; that
path is kept separate in `append_to_state` itself.) -/
def getList (s : StateStore) (k : String) : List String :=
  match s k with
  | some (.list l) => l
  | _ => []

/-- Embedding of `append_to_state` (source lines 42-57):

```
existing_state = tool_context.state.get(field, [])
tool_context.state[field] = existing_state + [response]
return {"status": "success"}
```

The result is the updated store together with the returned dictionary.  If the
key already holds a bare string, Python's `existing_state + [response]` raises
a `TypeError`, embedded as the `.error` branch. -/
def append_to_state (state : StateStore) (field response : String) :
    Except String (StateStore × List (String × String)) :=
  match state field with
  | some (.str _) => .error "TypeError"
  | some (.list l) =>
      .ok (state.set field (.list (l ++ [response])), [("status", "success")])
  | none =>
      .ok (state.set field (.list ([] ++ [response])), [("status", "success")])

/-- Embedding of `pitch_is_good` (source lines 313-315):
`return not tool_context.state.get("CRITICAL_FEEDBACK")`.
It is typed like every branch predicate, `StateStore → Except String Bool`,
so that "never raises" is expressible; `dict.get` never raises in Python, so
the body is always `.ok`. -/
def pitch_is_good (state : StateStore) : Except String Bool :=
  .ok (!pyTruthy (state "CRITICAL_FEEDBACK"))

/-- A descriptor of one agent in the workflow tree, carrying the data the
source supplies when it instantiates `Agent`, `SequentialAgent`,
`ParallelAgent` and `LoopAgent`: a name, for LLM leaves an optional
`output_key` and the list of tool names, for composites the child list, for
loops the `max_iterations` cap, and for the conditional composite the
predicate and the two branch lists. -/
inductive AgentTree where
  | llm : String → Option String → List String → AgentTree
  | sequential : String → List AgentTree → AgentTree
  | parallel : String → List AgentTree → AgentTree
  | loop : String → List AgentTree → Nat → AgentTree
  | conditional : String → (StateStore → Except String Bool) →
      List AgentTree → List AgentTree → AgentTree

/-- Embedding of the `ConditionalAgent` object state (source lines 74-95):
`__init__` stores the condition and the two branch lists and passes
`sub_agents=[]` to the `SequentialAgent` base. -/
structure ConditionalAgent where
  name : String
  condition : StateStore → Except String Bool
  if_true_agents : List AgentTree
  if_false_agents : List AgentTree
  sub_agents : List AgentTree

/-- `ConditionalAgent.__init__` (source lines 77-95): `sub_agents` starts
empty. -/
def ConditionalAgent.init (name : String)
    (condition : StateStore → Except String Bool)
    (if_true_agents if_false_agents : List AgentTree) : ConditionalAgent :=
  ⟨name, condition, if_true_agents, if_false_agents, []⟩

/-- Embedding of `ConditionalAgent.plan` (source lines 97-105): evaluate
`self._condition(tool_context)`; on `True` bind `self.sub_agents` to
`self._if_true_agents`, on `False` to `self._if_false_agents`; then delegate
to the sequential base's plan, which plans exactly the current `sub_agents`
list.  A raising condition propagates before any assignment happens
(`.error`).  The result is the updated object together with the list the base
class will execute. -/
def ConditionalAgent.plan (a : ConditionalAgent) (ctx : StateStore) :
    Except String (ConditionalAgent × List AgentTree) :=
  match a.condition ctx with
  | .error e => .error e
  | .ok true =>
      .ok (⟨a.name, a.condition, a.if_true_agents, a.if_false_agents,
            a.if_true_agents⟩, a.if_true_agents)
  | .ok false =>
      .ok (⟨a.name, a.condition, a.if_true_agents, a.if_false_agents,
            a.if_false_agents⟩, a.if_false_agents)

/-- Modelled from the spec: the External Step Executor of section 6,
`execute(step_descriptor, state) -> (state', outcome)`.  An executor maps a
leaf agent's name and the current state to the new state produced by the
leaf's tool calls, the leaf's final text output, and whether the leaf raised
the Termination Signal (the `exit_loop` tool). -/
structure StepResult where
  state : StateStore
  output : String
  escalate : Bool

/-- An executor assigns each leaf step a `StepResult` at each state.  The
composites under verification are parametric in it. -/
def Exec : Type := String → StateStore → StepResult

/-- Terminal/iterating states of the Bounded Loop Composite, modelled from the
spec (section 4.3 state machine). -/
inductive LoopState where
  | ITERATING
  | EXITED
  | EXHAUSTED
deriving DecidableEq, Repr

/-- Modelled from the spec (section 4.3): one Bounded Loop.  `step` runs the
full child sequence once, returning the new state, whether some child raised
the Termination Signal during the iteration, and the trace of executed leaf
names.  The loop finishes the iteration that raised the signal, then stops as
`EXITED`; hitting the cap without a signal stops as `EXHAUSTED`.  Returns the
final state, the terminal loop state, the number of iterations run, and the
accumulated trace. -/
def loopRun (step : StateStore → StateStore × Bool × List String) :
    Nat → Nat → List String → StateStore →
    StateStore × LoopState × Nat × List String
  | 0, count, tr, s => (s, .EXHAUSTED, count, tr)
  | fuel + 1, count, tr, s =>
      let r := step s
      if r.2.1 then (r.1, .EXITED, count + 1, tr ++ r.2.2)
      else loopRun step fuel (count + 1) (tr ++ r.2.2) r.1

mutual

/-- Modelled from the spec (sections 4.1-4.4): run one agent against the
state.  Returns the new state, whether this agent raised the Termination
Signal towards its nearest enclosing loop, and the ordered trace of leaf names
that were executed.  LLM leaves delegate to the executor and then store their
output under `output_key` when one is set; sequential and parallel composites
run their children (the parallel composite in list order — see section 4.2,
write-commutation over its disjoint keys is proved separately); the loop
composite consumes its children's signal; the conditional composite selects a
branch exactly as `ConditionalAgent.plan` does. -/
def runAgent (ex : Exec) : AgentTree → StateStore → StateStore × Bool × List String
  | .llm name key _, s =>
      let r := ex name s
      let s' := match key with
        | some k => r.state.set k (.str r.output)
        | none => r.state
      (s', r.escalate, [name])
  | .sequential _ cs, s => runChildren ex cs s
  | .parallel _ cs, s => runChildren ex cs s
  | .loop _ cs m, s =>
      let r := loopRun (fun st => runChildren ex cs st) m 0 [] s
      (r.1, false, r.2.2.2)
  | .conditional _ cond tBranch fBranch, s =>
      match cond s with
      | .error _ => (s, false, [])
      | .ok true => runChildren ex tBranch s
      | .ok false => runChildren ex fBranch s

/-- Modelled from the spec (section 4.1): run a list of children in order
against the same evolving state, collecting whether any child raised the
Termination Signal and the concatenated trace. -/
def runChildren (ex : Exec) : List AgentTree → StateStore → StateStore × Bool × List String
  | [], s => (s, false, [])
  | c :: cs, s =>
      let r := runAgent ex c s
      let r' := runChildren ex cs r.1
      (r'.1, r.2.1 || r'.2.1, r.2.2 ++ r'.2.2)

end

/-- One activation of a `ConditionalAgent`: `plan` picks the branch, then the
sequential base runs exactly the planned `sub_agents` list (spec section 4.4:
"It then behaves exactly like a Sequential Composite over the selected
list").  A raising predicate aborts the whole activation with no child run. -/
def ConditionalAgent.activate (ex : Exec) (a : ConditionalAgent)
    (s : StateStore) :
    Except String (ConditionalAgent × (StateStore × Bool × List String)) :=
  match a.plan s with
  | .error e => .error e
  | .ok (a', selected) => .ok (a', runChildren ex selected s)

/-- `box_office_researcher` (source lines 109-121): LLM leaf, no tools,
`output_key="box_office_report"`. -/
def box_office_researcher : AgentTree :=
  .llm "box_office_researcher" (some "box_office_report") []

/-- `casting_agent` (source lines 123-137): LLM leaf, no tools,
`output_key="casting_report"`. -/
def casting_agent : AgentTree :=
  .llm "casting_agent" (some "casting_report") []

/-- `indian_line_producer` (source lines 139-154): LLM leaf, no tools,
`output_key="indian_budget_estimate"`. -/
def indian_line_producer : AgentTree :=
  .llm "indian_line_producer" (some "indian_budget_estimate") []

/-- `preproduction_team` (source lines 156-163): `ParallelAgent` over the
three analysis leaves. -/
def preproduction_team : AgentTree :=
  .parallel "preproduction_team"
    [box_office_researcher, casting_agent, indian_line_producer]

/-- `producer` (source lines 165-179): LLM leaf, no output key, no tools. -/
def producer : AgentTree := .llm "producer" none []

/-- `critic` (source lines 180-205): LLM leaf with
`tools=[append_to_state, exit_loop]`. -/
def critic : AgentTree := .llm "critic" none ["append_to_state", "exit_loop"]

/-- `file_writer` (source lines 207-240): LLM leaf with `tools=[write_file]`. -/
def file_writer : AgentTree := .llm "file_writer" none ["write_file"]

/-- `screenwriter` (source lines 242-269): LLM leaf with
`tools=[append_to_state]`. -/
def screenwriter : AgentTree := .llm "screenwriter" none ["append_to_state"]

/-- `researcher` (source lines 271-300): LLM leaf with the Wikipedia Langchain
tool and `append_to_state`. -/
def researcher : AgentTree :=
  .llm "researcher" none ["wikipedia_query_run", "append_to_state"]

/-- `writers_room` (source lines 302-311): `LoopAgent` over
researcher → screenwriter → critic with `max_iterations=5`. -/
def writers_room : AgentTree :=
  .loop "writers_room" [researcher, screenwriter, critic] 5

/-- `pitch_approval_workflow` (source lines 317-323): the `ConditionalAgent`
instance with `condition=pitch_is_good`,
`if_true_agents=[preproduction_team, file_writer]`,
`if_false_agents=[producer]`. -/
def pitch_approval_workflow : ConditionalAgent :=
  ConditionalAgent.init "pitch_approval_workflow" pitch_is_good
    [preproduction_team, file_writer] [producer]

/-- `pitch_approval_workflow` as a node of the workflow tree (same name,
predicate and branches as the `ConditionalAgent` instance). -/
def pitch_approval_node : AgentTree :=
  .conditional "pitch_approval_workflow" pitch_is_good
    [preproduction_team, file_writer] [producer]

/-- `film_concept_team` (source lines 325-332): `SequentialAgent` over
writers_room then the approval conditional. -/
def film_concept_team : AgentTree :=
  .sequential "film_concept_team" [writers_room, pitch_approval_node]

/-- The children of a composite node (for the conditional: both branches). -/
def AgentTree.childrenOf : AgentTree → List AgentTree
  | .llm _ _ _ => []
  | .sequential _ cs => cs
  | .parallel _ cs => cs
  | .loop _ cs _ => cs
  | .conditional _ _ tBranch fBranch => tBranch ++ fBranch

/-- The `max_iterations` cap of a loop node. -/
def AgentTree.maxIterOf : AgentTree → Option Nat
  | .loop _ _ m => some m
  | _ => none

/-- The tool-name list of an LLM leaf. -/
def AgentTree.toolsOf : AgentTree → List String
  | .llm _ _ ts => ts
  | _ => []

/-- The `output_key` of an LLM leaf. -/
def AgentTree.outKeyOf : AgentTree → Option String
  | .llm _ k _ => k
  | _ => none

/-- The predicate of a conditional node. -/
def AgentTree.condOf : AgentTree → Option (StateStore → Except String Bool)
  | .conditional _ c _ _ => some c
  | _ => none

/-- The true branch of a conditional node. -/
def AgentTree.trueBranch : AgentTree → List AgentTree
  | .conditional _ _ tBranch _ => tBranch
  | _ => []

/-- The false branch of a conditional node. -/
def AgentTree.falseBranch : AgentTree → List AgentTree
  | .conditional _ _ _ fBranch => fBranch
  | _ => []

/-- Whether a node is a `ParallelAgent`. -/
def AgentTree.isParallel : AgentTree → Bool
  | .parallel _ _ => true
  | _ => false

/-- Whether a node is an LLM leaf (an atomic Step). -/
def AgentTree.isLeaf : AgentTree → Bool
  | .llm _ _ _ => true
  | _ => false

/-- A trivial executor for concrete witnesses: every leaf leaves the state
unchanged, outputs the empty string and never raises the Termination Signal. -/
def ex0 : Exec := fun _ s => ⟨s, "", false⟩

/-- C4: `append_to_state` implements `store[key] = store.get(key, []) + [value]`:
for an absent key or a list-valued key the new value is the old list extended
with the response (so nothing is silently overwritten), an append to an absent
key yields a one-element list, and appending `"a"` then `"b"` to an initially
absent key yields exactly `["a", "b"]`. -/
theorem append_to_state_accumulates (s : StateStore) (field : String) :
    (∀ v, (s field = none ∨ ∃ l, s field = some (.list l)) →
      append_to_state s field v =
        .ok (s.set field (.list (getList s field ++ [v])),
             [("status", "success")]))
    ∧ (∀ a b, s field = none →
        ∃ s1 r1 s2 r2,
          append_to_state s field a = .ok (s1, r1) ∧
          append_to_state s1 field b = .ok (s2, r2) ∧
          s1 field = some (.list [a]) ∧
          s2 field = some (.list [a, b])) := by
  constructor
  · rintro v (h | ⟨l, h⟩) <;> simp [append_to_state, getList, h]
  · intro a b h
    refine ⟨s.set field (.list [a]), [("status", "success")],
            (s.set field (.list [a])).set field (.list [a, b]),
            [("status", "success")], ?_, ?_, ?_, ?_⟩
    · simp [append_to_state, h]
    · simp [append_to_state, StateStore.set]
    · simp [StateStore.set]
    · simp [StateStore.set]

/-- Witness for C4 at a concrete store: appending to the absent key
`CRITICAL_FEEDBACK` of the empty store yields the one-element list. -/
theorem append_to_state_accumulates_witness :
    append_to_state StateStore.empty "CRITICAL_FEEDBACK" "more conflict" =
      .ok (StateStore.empty.set "CRITICAL_FEEDBACK"
             (.list (getList StateStore.empty "CRITICAL_FEEDBACK" ++
               ["more conflict"])),
           [("status", "success")]) :=
  (append_to_state_accumulates StateStore.empty "CRITICAL_FEEDBACK").1
    "more conflict" (Or.inl rfl)

/-- C10: whenever `append_to_state` returns (existing value at the field
absent or a list), its return value is exactly the dictionary
`{"status": "success"}`; it never signals failure. -/
theorem append_to_state_returns_success (s : StateStore) (field v : String)
    (h : s field = none ∨ ∃ l, s field = some (.list l)) :
    ∃ s', append_to_state s field v = .ok (s', [("status", "success")]) := by
  rcases h with h | ⟨l, h⟩
  · exact ⟨s.set field (.list ([] ++ [v])), by simp [append_to_state, h]⟩
  · exact ⟨s.set field (.list (l ++ [v])), by simp [append_to_state, h]⟩

/-- Witness for C10: a concrete append to a store whose `research` key holds a
list returns the success dictionary. -/
theorem append_to_state_returns_success_witness :
    ∃ s', append_to_state
        (StateStore.empty.set "research" (.list ["fact"])) "research" "talk" =
      .ok (s', [("status", "success")]) :=
  append_to_state_returns_success
    (StateStore.empty.set "research" (.list ["fact"])) "research" "talk"
    (Or.inr ⟨["fact"], by simp [StateStore.set]⟩)

/-- C8: `pitch_is_good` is total over the state store's shapes — it always
returns a boolean (`.ok`), and an absent `CRITICAL_FEEDBACK` key, an empty
list there, or an empty string there all count as "no pending feedback"
(`true`) rather than an error. -/
theorem pitch_is_good_total (s : StateStore) :
    (∃ b, pitch_is_good s = .ok b)
    ∧ (s "CRITICAL_FEEDBACK" = none → pitch_is_good s = .ok true)
    ∧ (s "CRITICAL_FEEDBACK" = some (.list []) → pitch_is_good s = .ok true)
    ∧ (s "CRITICAL_FEEDBACK" = some (.str "") → pitch_is_good s = .ok true) := by
  refine ⟨⟨!pyTruthy (s "CRITICAL_FEEDBACK"), rfl⟩, ?_, ?_, ?_⟩ <;>
    intro h <;> simp [pitch_is_good, pyTruthy, h]

/-- Witness for C8: on the empty store (key absent) the predicate returns
`.ok true`. -/
theorem pitch_is_good_total_witness :
    pitch_is_good StateStore.empty = .ok true :=
  (pitch_is_good_total StateStore.empty).2.1 rfl

/-- C1: activating the conditional composite with predicate `p` and branches
`A`, `B` on state `s` selects and runs exactly the children of `A` when
`p s` is true and exactly the children of `B` when `p s` is false: the
activation's whole result is `runChildren` over the selected branch alone, so
no child of the unselected branch is ever run in that activation. -/
theorem conditional_branch_selection (ex : Exec) (n : String)
    (p : StateStore → Bool) (A B : List AgentTree) (s : StateStore) :
    (p s = true →
      (ConditionalAgent.init n (fun st => .ok (p st)) A B).activate ex s =
        .ok (⟨n, fun st => .ok (p st), A, B, A⟩, runChildren ex A s))
    ∧ (p s = false →
      (ConditionalAgent.init n (fun st => .ok (p st)) A B).activate ex s =
        .ok (⟨n, fun st => .ok (p st), A, B, B⟩, runChildren ex B s)) := by
  constructor <;> intro h <;>
    simp [ConditionalAgent.activate, ConditionalAgent.plan,
      ConditionalAgent.init, h]

/-- Witness for C1: with the always-true predicate and branches
`A = [producer]`, `B = []`, the activation on the empty store runs exactly
`A`. -/
theorem conditional_branch_selection_witness :
    (ConditionalAgent.init "w" (fun _ => .ok true) [producer] []).activate ex0
        StateStore.empty =
      .ok (⟨"w", fun _ => .ok true, [producer], [], [producer]⟩,
           runChildren ex0 [producer] StateStore.empty) :=
  (conditional_branch_selection ex0 "w" (fun _ => true) [producer] []
    StateStore.empty).1 rfl

/-- C2: two successive activations of the same conditional instance each
evaluate the predicate on the state as it stands at that activation.  If the
first activation sees `p s1 = true` (selecting the true branch, and leaving the
object with `sub_agents = A`), and the state then changes so that
`p s2 = false`, the second activation of that same returned object selects the
false branch — no selection is reused. -/
theorem conditional_predicate_reevaluated (n : String)
    (p : StateStore → Bool) (A B : List AgentTree) (s1 s2 : StateStore)
    (h1 : p s1 = true) (h2 : p s2 = false) :
    (ConditionalAgent.init n (fun st => .ok (p st)) A B).plan s1 =
      .ok (⟨n, fun st => .ok (p st), A, B, A⟩, A)
    ∧ (⟨n, fun st => .ok (p st), A, B, A⟩ : ConditionalAgent).plan s2 =
      .ok (⟨n, fun st => .ok (p st), A, B, B⟩, B) := by
  constructor <;>
    simp [ConditionalAgent.plan, ConditionalAgent.init, h1, h2]

/-- Witness for C2, with the pitch predicate's boolean: the first activation
on the empty store (no feedback) selects the true branch; after feedback is
appended, the second activation of the returned object selects the false
branch. -/
theorem conditional_predicate_reevaluated_witness :
    (ConditionalAgent.init "w2"
        (fun st => .ok (!pyTruthy (st "CRITICAL_FEEDBACK")))
        [preproduction_team, file_writer] [producer]).plan StateStore.empty =
      .ok (⟨"w2", fun st => .ok (!pyTruthy (st "CRITICAL_FEEDBACK")),
            [preproduction_team, file_writer], [producer],
            [preproduction_team, file_writer]⟩,
           [preproduction_team, file_writer])
    ∧ (⟨"w2", fun st => .ok (!pyTruthy (st "CRITICAL_FEEDBACK")),
          [preproduction_team, file_writer], [producer],
          [preproduction_team, file_writer]⟩ : ConditionalAgent).plan
        (StateStore.empty.set "CRITICAL_FEEDBACK" (.list ["needs work"])) =
      .ok (⟨"w2", fun st => .ok (!pyTruthy (st "CRITICAL_FEEDBACK")),
            [preproduction_team, file_writer], [producer], [producer]⟩,
           [producer]) :=
  conditional_predicate_reevaluated "w2"
    (fun st => !pyTruthy (st "CRITICAL_FEEDBACK"))
    [preproduction_team, file_writer] [producer] StateStore.empty
    (StateStore.empty.set "CRITICAL_FEEDBACK" (.list ["needs work"]))
    rfl (by simp [StateStore.set, pyTruthy])

/-- C6: an activation of the conditional composite never mutates the stored
branch descriptors (or the predicate): whatever branch is selected and run,
the returned object carries `if_true_agents`, `if_false_agents` and
`condition` unchanged. -/
theorem conditional_branches_not_mutated (ex : Exec) (a : ConditionalAgent)
    (s : StateStore) (a' : ConditionalAgent) (r : StateStore × Bool × List String)
    (h : a.activate ex s = .ok (a', r)) :
    a'.condition = a.condition
    ∧ a'.if_true_agents = a.if_true_agents
    ∧ a'.if_false_agents = a.if_false_agents := by
  revert h
  cases hc : a.condition s with
  | error e => simp [ConditionalAgent.activate, ConditionalAgent.plan, hc]
  | ok b =>
      cases b <;>
        simp [ConditionalAgent.activate, ConditionalAgent.plan, hc] <;>
        rintro rfl _ <;> simp

/-- Witness for C6 at a concrete activation (always-true predicate, empty
branches, trivial executor). -/
theorem conditional_branches_not_mutated_witness :
    (⟨"w3", fun _ => .ok true, [], [producer], []⟩ :
        ConditionalAgent).condition =
      (ConditionalAgent.init "w3" (fun _ => .ok true) [] [producer]).condition
    ∧ (⟨"w3", fun _ => .ok true, [], [producer], []⟩ :
        ConditionalAgent).if_true_agents =
      (ConditionalAgent.init "w3" (fun _ => .ok true) []
        [producer]).if_true_agents
    ∧ (⟨"w3", fun _ => .ok true, [], [producer], []⟩ :
        ConditionalAgent).if_false_agents =
      (ConditionalAgent.init "w3" (fun _ => .ok true) []
        [producer]).if_false_agents :=
  conditional_branches_not_mutated ex0
    (ConditionalAgent.init "w3" (fun _ => .ok true) [] [producer])
    StateStore.empty ⟨"w3", fun _ => .ok true, [], [producer], []⟩
    (runChildren ex0 [] StateStore.empty) rfl

/-- C7: if evaluating the conditional's predicate on the current state raises
instead of returning a boolean, the error propagates out of `plan` before any
branch is bound, and the whole activation aborts with that error — no child of
either branch is run. -/
theorem conditional_predicate_error_aborts (ex : Exec) (a : ConditionalAgent)
    (s : StateStore) (e : String) (h : a.condition s = .error e) :
    a.plan s = .error e ∧ a.activate ex s = .error e := by
  simp [ConditionalAgent.plan, ConditionalAgent.activate, h]

/-- Witness for C7: a predicate that raises `KeyError` aborts the concrete
activation with that error. -/
theorem conditional_predicate_error_aborts_witness :
    (ConditionalAgent.init "w4" (fun _ => .error "KeyError")
        [preproduction_team] [producer]).plan StateStore.empty =
      .error "KeyError"
    ∧ (ConditionalAgent.init "w4" (fun _ => .error "KeyError")
        [preproduction_team] [producer]).activate ex0 StateStore.empty =
      .error "KeyError" :=
  conditional_predicate_error_aborts ex0
    (ConditionalAgent.init "w4" (fun _ => .error "KeyError")
      [preproduction_team] [producer])
    StateStore.empty "KeyError" rfl

/-- Writes to two distinct keys commute. -/
theorem StateStore.set_comm {k k' : String} (h : k ≠ k') (s : StateStore)
    (v v' : Value) :
    (s.set k v).set k' v' = (s.set k' v').set k v := by
  funext x
  by_cases h1 : x = k'
  · by_cases h2 : x = k
    · exact absurd (h1.symm.trans h2).symm h
    · simp [StateStore.set, h1, h2, Ne.symm h]
  · by_cases h2 : x = k <;> simp [StateStore.set, h1, h2, h]

/-- Apply a list of `output_key` writes (key, output text) to the store in
order: each leaf of the parallel composite stores its text output under its
`output_key`. -/
def applyWrites (s : StateStore) (ws : List (String × String)) : StateStore :=
  ws.foldl (fun st kv => st.set kv.1 (.str kv.2)) s

/-- When the written keys are pairwise distinct, applying the writes in any
order yields the same store. -/
theorem applyWrites_perm {ws ws' : List (String × String)}
    (h : ws.Perm ws') :
    (ws.map Prod.fst).Nodup → ∀ s, applyWrites s ws = applyWrites s ws' := by
  induction h with
  | nil => intro _ s; rfl
  | cons x _ ih =>
      intro hnd s
      simp only [applyWrites, List.foldl_cons]
      exact ih (List.nodup_cons.mp hnd).2 _
  | swap x y l =>
      intro hnd s
      have hmem : y.1 ∉ x.1 :: l.map Prod.fst := (List.nodup_cons.mp hnd).1
      have hne : y.1 ≠ x.1 := fun hh => hmem (hh ▸ List.mem_cons_self _ _)
      simp only [applyWrites, List.foldl_cons]
      rw [StateStore.set_comm hne]
  | trans h1 _ ih1 ih2 =>
      intro hnd s
      exact (ih1 hnd s).trans (ih2 ((h1.map Prod.fst).nodup_iff.mp hnd) s)

/-- An executor whose leaves only produce text (state untouched, no
Termination Signal): the output of leaf `name` is `f name`. -/
def pureEx (f : String → String) : Exec := fun name s => ⟨s, f name, false⟩

/-- C9: the three children of `preproduction_team` write the pairwise-distinct
output keys `box_office_report`, `casting_report`, `indian_budget_estimate`;
for every starting state, applying the three writes in any order yields the
same final state, that state contains all three keys, and running
`preproduction_team` with a text-producing executor performs exactly those
three writes. -/
theorem preproduction_disjoint_keys_commute (s : StateStore)
    (o1 o2 o3 : String) :
    preproduction_team.childrenOf.map AgentTree.outKeyOf =
      [some "box_office_report", some "casting_report",
       some "indian_budget_estimate"]
    ∧ (["box_office_report", "casting_report",
        "indian_budget_estimate"] : List String).Nodup
    ∧ (∀ ws, ws.Perm [("box_office_report", o1), ("casting_report", o2),
          ("indian_budget_estimate", o3)] →
        applyWrites s ws =
          applyWrites s [("box_office_report", o1), ("casting_report", o2),
            ("indian_budget_estimate", o3)])
    ∧ applyWrites s [("box_office_report", o1), ("casting_report", o2),
        ("indian_budget_estimate", o3)] "box_office_report" =
        some (.str o1)
    ∧ applyWrites s [("box_office_report", o1), ("casting_report", o2),
        ("indian_budget_estimate", o3)] "casting_report" = some (.str o2)
    ∧ applyWrites s [("box_office_report", o1), ("casting_report", o2),
        ("indian_budget_estimate", o3)] "indian_budget_estimate" =
        some (.str o3)
    ∧ ∀ f, runAgent (pureEx f) preproduction_team s =
        (applyWrites s [("box_office_report", f "box_office_researcher"),
          ("casting_report", f "casting_agent"),
          ("indian_budget_estimate", f "indian_line_producer")], false,
         ["box_office_researcher", "casting_agent", "indian_line_producer"]) := by
  refine ⟨rfl, by decide, ?_, ?_, ?_, ?_, ?_⟩
  · intro ws hperm
    exact (applyWrites_perm hperm.symm
      (by decide : (["box_office_report", "casting_report",
        "indian_budget_estimate"] : List String).Nodup) s).symm
  · simp [applyWrites, StateStore.set]
  · simp [applyWrites, StateStore.set]
  · simp [applyWrites, StateStore.set]
  · intro f
    simp [preproduction_team, box_office_researcher, casting_agent,
      indian_line_producer, runAgent, runChildren, pureEx, applyWrites]

/-- Witness for C9: a concrete reordering of the three writes on the empty
store produces the same store as the canonical order. -/
theorem preproduction_disjoint_keys_commute_witness :
    applyWrites StateStore.empty
      [("indian_budget_estimate", "estimate"), ("box_office_report", "hit"),
       ("casting_report", "star")] =
    applyWrites StateStore.empty
      [("box_office_report", "hit"), ("casting_report", "star"),
       ("indian_budget_estimate", "estimate")] :=
  (preproduction_disjoint_keys_commute StateStore.empty "hit" "star"
    "estimate").2.2.1
    [("indian_budget_estimate", "estimate"), ("box_office_report", "hit"),
     ("casting_report", "star")] (by decide)

/-- The state reached after `n` full loop iterations of `step`, starting from
`s` (ignoring signals; used to phrase "no signal during the first iterations"). -/
def iterState (step : StateStore → StateStore × Bool × List String) :
    Nat → StateStore → StateStore
  | 0, s => s
  | n + 1, s => iterState step n (step s).1

/-- One full iteration of the writers-room loop body (the child sequence
researcher → screenwriter → critic of the source's `writers_room`), under
executor `ex`. -/
def writersStep (ex : Exec) : StateStore → StateStore × Bool × List String :=
  fun st => runChildren ex [researcher, screenwriter, critic] st

/-- If no iteration before the `k`-th raises the Termination Signal and the
`k`-th does (`1 ≤ k ≤ fuel`), the loop stops as `EXITED` after exactly
`count + k` iterations. -/
theorem loopRun_exited (step : StateStore → StateStore × Bool × List String) :
    ∀ fuel k count tr s, 1 ≤ k → k ≤ fuel →
    (∀ i, i + 1 < k → (step (iterState step i s)).2.1 = false) →
    (step (iterState step (k - 1) s)).2.1 = true →
    (loopRun step fuel count tr s).2.1 = .EXITED ∧
      (loopRun step fuel count tr s).2.2.1 = count + k := by
  intro fuel
  induction fuel with
  | zero => intro k count tr s hk1 hk2 _ _; omega
  | succ fuel ih =>
      intro k count tr s hk1 hk2 hbefore hsig
      match k, hk1 with
      | 1, _ =>
          have h0 : (step s).2.1 = true := hsig
          constructor <;> simp [loopRun, h0]
      | (j + 2), _ =>
          have h0 : (step s).2.1 = false := hbefore 0 (by omega)
          simp only [loopRun, h0, if_false, Bool.false_eq_true]
          have := ih (j + 1) (count + 1) (tr ++ (step s).2.2) (step s).1
            (by omega) (by omega)
            (fun i hi => hbefore (i + 1) (by omega)) hsig
          exact ⟨this.1, this.2.trans (by omega)⟩

/-- If no iteration raises the Termination Signal, the loop stops as
`EXHAUSTED` after exactly `count + fuel` iterations (a normal completion, not
an error). -/
theorem loopRun_exhausted (step : StateStore → StateStore × Bool × List String) :
    ∀ fuel count tr s,
    (∀ i, i < fuel → (step (iterState step i s)).2.1 = false) →
    (loopRun step fuel count tr s).2.1 = .EXHAUSTED ∧
      (loopRun step fuel count tr s).2.2.1 = count + fuel := by
  intro fuel
  induction fuel with
  | zero => intro count tr s _; exact ⟨rfl, rfl⟩
  | succ fuel ih =>
      intro count tr s hnone
      have h0 : (step s).2.1 = false := hnone 0 (by omega)
      simp only [loopRun, h0, if_false, Bool.false_eq_true]
      have := ih (count + 1) (tr ++ (step s).2.2) (step s).1
        (fun i hi => hnone (i + 1) (by omega))
      exact ⟨this.1, this.2.trans (by omega)⟩

/-- C3: the writers-room Bounded Loop has cap `max_iterations = 5`; under any
executor, if the child sequence raises the Termination Signal first in
iteration `k` (`1 ≤ k ≤ 5`), the loop finishes that iteration and terminates
as `EXITED` after exactly `k` iterations; if no iteration ever raises the
signal, it terminates as `EXHAUSTED` after exactly 5 iterations, and
`runAgent` on `writers_room` completes normally there (exhaustion is not an
error: the loop just hands its final state onward, with no signal of its
own). -/
theorem writers_room_loop_termination (ex : Exec) (s : StateStore) :
    writers_room.maxIterOf = some 5
    ∧ (∀ k, 1 ≤ k → k ≤ 5 →
        (∀ i, i + 1 < k →
          (writersStep ex (iterState (writersStep ex) i s)).2.1 = false) →
        (writersStep ex (iterState (writersStep ex) (k - 1) s)).2.1 = true →
        (loopRun (writersStep ex) 5 0 [] s).2.1 = .EXITED ∧
          (loopRun (writersStep ex) 5 0 [] s).2.2.1 = k)
    ∧ ((∀ i, i < 5 →
          (writersStep ex (iterState (writersStep ex) i s)).2.1 = false) →
        (loopRun (writersStep ex) 5 0 [] s).2.1 = .EXHAUSTED ∧
          (loopRun (writersStep ex) 5 0 [] s).2.2.1 = 5)
    ∧ runAgent ex writers_room s =
        ((loopRun (writersStep ex) 5 0 [] s).1, false,
         (loopRun (writersStep ex) 5 0 [] s).2.2.2) := by
  refine ⟨rfl, ?_, ?_, ?_⟩
  · intro k hk1 hk5 hbefore hsig
    have := loopRun_exited (writersStep ex) 5 k 0 [] s hk1 hk5 hbefore hsig
    exact ⟨this.1, this.2.trans (by omega)⟩
  · intro hnone
    exact loopRun_exhausted (writersStep ex) 5 0 [] s hnone
  · rw [show writersStep ex =
        fun st => runChildren ex [researcher, screenwriter, critic] st
      from rfl]
    simp [writers_room, runAgent]

/-- A concrete executor for the C3 witness: the critic appends one feedback
line per iteration and raises the Termination Signal (via `exit_loop`) once
three lines have accumulated, i.e. in iteration 3; every other leaf leaves the
state untouched. -/
def critiqueEx : Exec := fun name s =>
  if name = "critic" then
    match append_to_state s "CRITICAL_FEEDBACK" "more conflict" with
    | .ok r =>
        ⟨r.1, "critique",
         decide (3 ≤ (getList r.1 "CRITICAL_FEEDBACK").length)⟩
    | .error _ => ⟨s, "critique", false⟩
  else ⟨s, name, false⟩

/-- Witness for C3: under `critiqueEx` the writers-room loop exits as
`EXITED` after exactly 3 of its 5 permitted iterations. -/
theorem writers_room_loop_termination_witness :
    (loopRun (writersStep critiqueEx) 5 0 [] StateStore.empty).2.1 =
      LoopState.EXITED
    ∧ (loopRun (writersStep critiqueEx) 5 0 [] StateStore.empty).2.2.1 = 3 :=
  ((writers_room_loop_termination critiqueEx StateStore.empty).2.1) 3
    (by omega) (by omega)
    (by
      intro i hi
      have hi2 : i < 2 := by omega
      interval_cases i <;>
        simp [writersStep, runAgent, runChildren, critiqueEx, iterState,
          append_to_state, StateStore.set, StateStore.empty, getList,
          researcher, screenwriter, critic])
    (by
      simp [writersStep, runAgent, runChildren, critiqueEx, iterState,
        append_to_state, StateStore.set, StateStore.empty, getList,
        researcher, screenwriter, critic])

/-- C5: the concrete pitch pipeline is assembled as a Bounded Loop over
research → draft → critique with cap 5 (whose critique step carries both the
`append_to_state` and `exit_loop` tools, so it can append feedback or raise
the Termination Signal), followed by the Conditional Composite whose
predicate is `pitch_is_good` ("no pending feedback": true on an absent or
empty `CRITICAL_FEEDBACK`, false once feedback is pending); its true branch is
the Parallel Composite of the three analysis steps followed by the `file_writer`
finalize step, and its false branch is exactly the one `producer` step. -/
theorem pitch_pipeline_assembly :
    film_concept_team.childrenOf = [writers_room, pitch_approval_node]
    ∧ writers_room.maxIterOf = some 5
    ∧ writers_room.childrenOf = [researcher, screenwriter, critic]
    ∧ "append_to_state" ∈ critic.toolsOf
    ∧ "exit_loop" ∈ critic.toolsOf
    ∧ pitch_approval_node.condOf = some pitch_is_good
    ∧ pitch_approval_workflow.condition = pitch_is_good
    ∧ pitch_is_good StateStore.empty = .ok true
    ∧ pitch_is_good
        (StateStore.empty.set "CRITICAL_FEEDBACK" (.list ["needs work"])) =
      .ok false
    ∧ pitch_approval_node.trueBranch = [preproduction_team, file_writer]
    ∧ pitch_approval_workflow.if_true_agents = [preproduction_team, file_writer]
    ∧ preproduction_team.isParallel = true
    ∧ preproduction_team.childrenOf.length = 3
    ∧ file_writer.isLeaf = true
    ∧ "write_file" ∈ file_writer.toolsOf
    ∧ pitch_approval_node.falseBranch = [producer]
    ∧ pitch_approval_workflow.if_false_agents = [producer]
    ∧ pitch_approval_workflow.if_false_agents.length = 1
    ∧ producer.isLeaf = true := by
  refine ⟨rfl, rfl, rfl, ?_, ?_, rfl, rfl, rfl, ?_, rfl, rfl, rfl, rfl, rfl,
    ?_, rfl, rfl, rfl, rfl⟩
  · simp [critic, AgentTree.toolsOf]
  · simp [critic, AgentTree.toolsOf]
  · simp [pitch_is_good, pyTruthy, StateStore.set, StateStore.empty]
  · simp [file_writer, AgentTree.toolsOf]
